import Mathlib

/-!
# QuickTranslatorAI: the workflow controller of `TranslationInterface.jsx`

A shallow embedding of the React component `TranslationInterface`
(`src/components/TranslationInterface.jsx`).

* The `useState` values of one render are a `View`.  A handler is a closure
  created by one render: what it *reads* from component state comes from that
  render (`cl : View`), what it *writes* goes to the live state (`World.view`).
* The `useRef` cells (`mediaRecorder`, `audioChunks`, `recordingTimeout`,
  `recordingStartTime`) are live fields of `World`.
* Awaited results (microphone permission, HTTP responses) are arguments of the
  handlers.  The requests handed to `fetch` are recorded in `World.requests`.
* The page's `localStorage` is a field of `Page`, beside the component.
* The cleanup of the effect of lines 32-41 runs when React commits a re-render
  (`commitRender`); when that happens relative to the lines of an `async`
  handler depends on how the component is mounted (`Root`).
* The clipboard button is not part of this development.
-/

namespace QuickTranslator

/-! ## Data model -/

/-- The `settings` object (lines 24-30). -/
structure Settings where
  model : String
  lowercase : Bool
  apiKey : String
  editTranscriptionBeforeTranslate : Bool
  recordingTimeLimit : Int
  deriving DecidableEq, Repr

/-- A `MediaStream` handed out by `getUserMedia`, known by an identifier. -/
structure MediaStream where
  id : Nat
  deriving DecidableEq, Repr

/-- The `useState` values of the component (lines 6-17 and 24). -/
structure View where
  inputText : String
  outputText : String
  isTranslating : Bool
  sourceLang : String
  targetLang : String
  showSettings : Bool
  copySuccess : Bool
  inputMode : String
  isRecording : Bool
  audioStream : Option MediaStream
  showEditableTranscription : Bool
  recordingError : String
  settings : Settings
  deriving DecidableEq, Repr

/-- A `Blob`: its parts in order and its MIME type. -/
structure Blob where
  parts : List (List Nat)
  type : String
  deriving DecidableEq, Repr

/-- What is handed to `fetch`: the transcription call of lines 131-137 and the
chat-completion call of lines 166-203 (the fields that vary). -/
inductive Request where
  | transcription (apiKey : String) (file : Blob)
  | translation (apiKey model sourceLang targetLang text : String)
  deriving DecidableEq, Repr

/-- The request is a chat-completion (translation) call. -/
def Request.isTranslation : Request → Bool
  | .translation _ _ _ _ _ => true
  | .transcription _ _ => false

/-- The request is a transcription call. -/
def Request.isTranscription : Request → Bool
  | .transcription _ _ => true
  | .translation _ _ _ _ _ => false

/-- The `MediaRecorder` kept in `mediaRecorder.current`: its stream, whether
its state is `recording`, and the render whose `ondataavailable` / `onstop`
closures were installed on it. -/
structure Recorder where
  stream : MediaStream
  recording : Bool
  closure : View
  deriving DecidableEq, Repr

/-- An armed `setTimeout` of `startRecording` (lines 99-102): its identifier,
its delay in milliseconds and the render whose closure it will call. -/
structure Timer where
  id : Nat
  delay : Int
  closure : View
  deriving DecidableEq, Repr

/-- The live component: current state, the four refs, the armed timers, the
streams whose tracks were stopped, and the network calls made so far
(`requests`, oldest first) with the number of them already settled. -/
structure World where
  view : View
  mediaRecorder : Option Recorder
  audioChunks : List (List Nat)
  recordingTimeout : Option Nat
  recordingStartTime : Option Int
  timers : List Timer
  nextTimerId : Nat
  stoppedTracks : List MediaStream
  requests : List Request
  settled : Nat
  deriving DecidableEq, Repr

/-- Number of network calls started and not yet settled. -/
def World.inFlight (w : World) : Nat := w.requests.length - w.settled

/-! ## JavaScript strings -/

/-- The code points `String.prototype.trim` strips: ECMAScript WhiteSpace and
LineTerminator. -/
def isJsWhiteSpace (c : Char) : Bool :=
  c.toNat ∈ [0x09, 0x0A, 0x0B, 0x0C, 0x0D, 0x20, 0xA0, 0x1680,
    0x2000, 0x2001, 0x2002, 0x2003, 0x2004, 0x2005, 0x2006, 0x2007, 0x2008,
    0x2009, 0x200A, 0x2028, 0x2029, 0x202F, 0x205F, 0x3000, 0xFEFF]

/-- The method `s.trim()`. -/
def jsTrim (s : String) : String :=
  String.mk ((s.data.dropWhile isJsWhiteSpace).reverse.dropWhile isJsWhiteSpace).reverse

/-- Truthiness of a string: `!!s`. -/
def truthy (s : String) : Bool := s != ""

/-- A text that is empty or made of white space only. -/
def isBlank (s : String) : Bool := s.data.all isJsWhiteSpace

/-! ## Languages (lines 43-59, 220-226) -/

/-- The list `allLanguages` (lines 44-46). -/
def allLanguages : List String :=
  ["English", "Hebrew", "Spanish", "French", "German", "Italian", "Russian", "Arabic"]

/-- The function `getAvailableLanguages(isSource)` in a render with state `v` (lines 43-53). -/
def getAvailableLanguages (v : View) (isSource : Bool) : List String :=
  if isSource then allLanguages
  else allLanguages.filter (fun lang => lang != "Hebrew" && lang != v.sourceLang)

/-- The effect on `[sourceLang, targetLang]` (lines 55-59). -/
def languageEffect (v : View) : View :=
  if v.targetLang = v.sourceLang ∨ (v.sourceLang = "Hebrew" ∧ v.targetLang = "Hebrew") then
    { v with targetLang := if v.sourceLang = "English" then "Spanish" else "English" }
  else v

/-- The handler `swapLanguages` (lines 220-226). -/
def swapLanguages (v : View) : View :=
  if v.sourceLang ≠ "Hebrew" ∧ v.targetLang ≠ "Hebrew" then
    { v with sourceLang := v.targetLang, targetLang := v.sourceLang }
  else v

/-- The three ways the user changes the language pair: the source `<select>`
(lines 279-287), the target `<select>` (lines 299-307), the swap button. -/
inductive LangAction where
  | selectSource (lang : String)
  | selectTarget (lang : String)
  | swap
  deriving DecidableEq, Repr

/-- One language action as the UI offers it (`none`: the `<select>` has no such
option), before the effect runs. -/
def langAction (a : LangAction) (v : View) : Option View :=
  match a with
  | .selectSource lang =>
      if lang ∈ getAvailableLanguages v true then some { v with sourceLang := lang } else none
  | .selectTarget lang =>
      if lang ∈ getAvailableLanguages v false then some { v with targetLang := lang } else none
  | .swap => some (swapLanguages v)

/-- A language action followed by the effect of lines 55-59. -/
def langStep (a : LangAction) (v : View) : Option View :=
  (langAction a v).map languageEffect

/-- A sequence of language actions, each followed by the effect. -/
def langRun : List LangAction → View → Option View
  | [], v => some v
  | a :: rest, v => (langStep a v).bind (langRun rest)

/-- The invariant of the language pair. -/
def LangInv (v : View) : Prop :=
  v.sourceLang ≠ v.targetLang ∧ v.targetLang ≠ "Hebrew"


/-! ## Translation (lines 159-218) -/

/-- How the awaited chat-completion call ends: a 2xx reply whose first choice
has message content `content`; a reply that is not `ok` (line 205); or
anything else thrown inside the `try` (rejected `fetch`, unreadable body), with
its `error.message`. -/
inductive TranslationResponse where
  | ok (content : String)
  | notOk
  | threw (message : String)
  deriving DecidableEq, Repr

/-- The request of lines 166-203 as built by the render `cl`. -/
def translationRequest (cl : View) (textToTranslate : String) : Request :=
  .translation cl.settings.apiKey cl.settings.model cl.sourceLang cl.targetLang textToTranslate

/-- The part of `handleTranslate` before `await fetch` (lines 160-166): `none`
is the early `return` of line 160. -/
def handleTranslateBegin (cl : View) (w : World) (textToTranslate : String) : Option World :=
  if !truthy (jsTrim textToTranslate) || !truthy cl.settings.apiKey then none
  else
    some { w with
      view := { w.view with showEditableTranscription := false, isTranslating := true }
      requests := w.requests ++ [translationRequest cl textToTranslate] }

/-- The part of `handleTranslate` after the call has settled (lines 205-217).
`toLowerCase` is `String.prototype.toLowerCase`. -/
def handleTranslateEnd (toLowerCase : String → String) (cl : View) (w : World)
    (r : TranslationResponse) : World :=
  let out : String :=
    match r with
    | .ok content =>
        let translatedText := jsTrim content
        if cl.settings.lowercase then toLowerCase translatedText else translatedText
    | .notOk => "Error: " ++ "Translation failed"
    | .threw message => "Error: " ++ message
  { w with
    view := { w.view with outputText := out, isTranslating := false }
    settled := w.settled + 1 }

/-- The whole of `handleTranslate(textToTranslate)`, its call ending as `r`. -/
def handleTranslate (toLowerCase : String → String) (cl : View) (w : World)
    (textToTranslate : String) (r : TranslationResponse) : World :=
  match handleTranslateBegin cl w textToTranslate with
  | none => w
  | some w1 => handleTranslateEnd toLowerCase cl w1 r

/-! ## Transcription (lines 121-157) -/

/-- How the awaited transcription call ends: a 2xx reply whose body has `text`,
or anything that lands in `catch` (rejected `fetch`, reply not `ok`). -/
inductive TranscriptionResponse where
  | ok (text : String)
  | failed
  deriving DecidableEq, Repr

/-- The part of `processAudioWithWhisper` before `await fetch` (lines 122-137):
`none` is the early `return` of line 122. -/
def processAudioBegin (cl : View) (w : World) (blob : Blob) : Option World :=
  if !truthy cl.settings.apiKey then none
  else
    some { w with
      view := { w.view with isTranslating := true }
      requests := w.requests ++ [.transcription cl.settings.apiKey blob] }

/-- The whole of `processAudioWithWhisper(blob)`: its own call ends as `r`; the
call of `handleTranslate`, when one is made, ends as `t`. -/
def processAudioWithWhisper (toLowerCase : String → String) (cl : View) (w : World)
    (blob : Blob) (r : TranscriptionResponse) (t : TranslationResponse) : World :=
  match processAudioBegin cl w blob with
  | none => w
  | some w1 =>
      let w2 := { w1 with settled := w1.settled + 1 }
      let w3 : World :=
        match r with
        | .ok text =>
            let w3 := { w2 with view := { w2.view with inputText := text } }
            if cl.settings.editTranscriptionBeforeTranslate then
              { w3 with view := { w3.view with showEditableTranscription := true } }
            else handleTranslate toLowerCase cl w3 text t
        | .failed =>
            { w2 with view := { w2.view with
                recordingError := "Transcription failed. Please try again." } }
      { w3 with view := { w3.view with isTranslating := false } }

/-! ## Recording (lines 61-119) -/

/-- The call `clearTimeout(id)`: the timer is disarmed. -/
def clearTimeout (w : World) (id : Nat) : World :=
  { w with timers := w.timers.filter (fun t => t.id != id) }

/-- The statement `if (recordingTimeout.current) clearTimeout(recordingTimeout.current)`. -/
def clearRecordingTimeout (w : World) : World :=
  match w.recordingTimeout with
  | some id => clearTimeout w id
  | none => w

/-- The handler `startRecording` of the render `cl` (lines 61-108), called at
time `now` (`Date.now()`); `media` is what `getUserMedia` resolves to, `none`
when it rejects.  This is the handler alone: the commit of the re-render it
causes, with the cleanup of lines 32-41, is `commitRender`. -/
def startRecording (cl : View) (w : World) (now : Int) (media : Option MediaStream) : World :=
  let w1 := clearRecordingTimeout w
  let w2 := { w1 with
    view := { w1.view with recordingError := "" }
    recordingStartTime := some now }
  match media with
  | some stream =>
      { w2 with
        view := { w2.view with audioStream := some stream, isRecording := true }
        mediaRecorder := some { stream := stream, recording := true, closure := cl }
        audioChunks := []
        recordingTimeout := some w2.nextTimerId
        timers := w2.timers ++
          [{ id := w2.nextTimerId, delay := cl.settings.recordingTimeLimit * 60 * 1000,
             closure := cl }]
        nextTimerId := w2.nextTimerId + 1 }
  | none =>
      { w2 with view := { w2.view with
          recordingError := "Error accessing microphone. Please check permissions." } }

/-- The `ondataavailable` handler (lines 75-77). -/
def ondataavailable (w : World) (data : List Nat) : World :=
  { w with audioChunks := w.audioChunks ++ [data] }

/-- The value `recordingDuration` of line 81, in seconds, for `endTime = Date.now()`. -/
def recordingDuration (w : World) (endTime : Int) : ℚ :=
  ((endTime : ℚ) - ((w.recordingStartTime.getD 0 : Int) : ℚ)) / 1000

/-- The `onstop` handler installed by the render `cl` (lines 79-94), running at
time `endTime`; `r` and `t` are how the calls it makes end. -/
def onstop (toLowerCase : String → String) (cl : View) (w : World) (endTime : Int)
    (r : TranscriptionResponse) (t : TranslationResponse) : World :=
  if recordingDuration w endTime > (cl.settings.recordingTimeLimit : ℚ) * 60 then
    { w with
      view := { w.view with
        recordingError := "Recording too long. Please limit to " ++
          toString cl.settings.recordingTimeLimit ++ " minutes."
        audioStream := none }
      audioChunks := [] }
  else
    let audioBlob : Blob := { parts := w.audioChunks, type := "audio/mp3" }
    let w1 := { w with audioChunks := [] }
    let w2 := processAudioWithWhisper toLowerCase cl w1 audioBlob r t
    { w2 with view := { w2.view with audioStream := none } }

/-- The handler `stopRecording` of the render `cl` (lines 110-119): `isRecording` is the
value that render saw. -/
def stopRecording (cl : View) (w : World) : World :=
  match w.mediaRecorder with
  | some recorder =>
      if cl.isRecording then
        clearRecordingTimeout { w with
          mediaRecorder := some { recorder with recording := false }
          stoppedTracks := w.stoppedTracks ++ [recorder.stream]
          view := { w.view with isRecording := false } }
      else w
  | none => w

/-- The callback of the timer armed at lines 99-102 by the render `cl`: it
calls the `stopRecording` of that render and sets the message with the
`settings` of that render. -/
def timeLimitCallback (cl : View) (w : World) : World :=
  let w1 := stopRecording cl w
  { w1 with view := { w1.view with
      recordingError := "Recording time limit reached (" ++
        toString cl.settings.recordingTimeLimit ++ " minutes)" } }

/-- The delay of the timer `id` has elapsed.  If the timer is still armed it
leaves the armed timers and its callback runs; a timer that `clearTimeout` has
disarmed never fires (`none`). -/
def timerFires (id : Nat) (w : World) : Option World :=
  match w.timers.find? (fun t => t.id == id) with
  | some t =>
      some (timeLimitCallback t.closure
        { w with timers := w.timers.filter (fun u => u.id != id) })
  | none => none

/-! ## The effect on `[audioStream]` (lines 32-41) -/

/-- The cleanup function the effect of lines 32-41 returns in a render whose
`audioStream` was `captured` (lines 33-40).  It reads `recordingTimeout.current`
when it runs, not when it was created. -/
def effectCleanup (captured : Option MediaStream) (w : World) : World :=
  let w1 := clearRecordingTimeout w
  match captured with
  | some stream => { w1 with stoppedTracks := w1.stoppedTracks ++ [stream] }
  | none => w1

/-- React commits a re-render, `committed` being the render committed before
it: when `audioStream` has changed (line 41), the cleanup of the effect of the
render `committed` runs, and the effect is set up again. -/
def commitRender (committed : View) (w : World) : World :=
  if w.view.audioStream = committed.audioStream then w
  else effectCleanup committed.audioStream w

/-- How the component is mounted, which the two source files do not show.
With `createRoot` the state updates of lines 71-97 are batched and the
re-render is committed after the continuation of `startRecording` has run to
its end (line 102).  With a legacy root (`ReactDOM.render`) each update made
after the `await` renders at once, and the cleanup pending since the update of
line 71 runs at the update of line 97, before line 99. -/
inductive Root where
  | createRoot
  | legacy
  deriving DecidableEq, Repr

/-- Lines 62-71 of `startRecording`, `getUserMedia` having resolved to
`stream`. -/
def startRecordingAcquire (w : World) (now : Int) (stream : MediaStream) : World :=
  let w1 := clearRecordingTimeout w
  { w1 with
    view := { w1.view with recordingError := "", audioStream := some stream }
    recordingStartTime := some now }

/-- Lines 72-102 of `startRecording` in the render `cl`. -/
def startRecordingArm (cl : View) (w : World) (stream : MediaStream) : World :=
  { w with
    view := { w.view with isRecording := true }
    mediaRecorder := some { stream := stream, recording := true, closure := cl }
    audioChunks := []
    recordingTimeout := some w.nextTimerId
    timers := w.timers ++
      [{ id := w.nextTimerId, delay := cl.settings.recordingTimeLimit * 60 * 1000,
         closure := cl }]
    nextTimerId := w.nextTimerId + 1 }

/-- The component once `startRecording` of the render `cl` has run with the
microphone granted and React has committed the re-render it causes; `cl` is
also the render committed before it. -/
def recordingStarted (root : Root) (cl : View) (w : World) (now : Int)
    (stream : MediaStream) : World :=
  match root with
  | .createRoot => commitRender cl (startRecording cl w now (some stream))
  | .legacy => startRecordingArm cl (commitRender cl (startRecordingAcquire w now stream)) stream

/-! ## The controls (lines 338-395) -/

/-- The text area and the Translate button are rendered (line 338); otherwise
the record button is. -/
def textAreaShown (v : View) : Bool :=
  v.inputMode == "text" || v.showEditableTranscription

/-- The `disabled` attribute of the Translate button (line 374). -/
def translateDisabled (v : View) : Bool :=
  v.isTranslating || !truthy (jsTrim v.inputText) || !truthy v.settings.apiKey

/-- The `disabled` attribute of the record button (line 388). -/
def recordDisabled (v : View) : Bool := truthy v.recordingError

/-- What the user can do to start work: click Translate, press Enter in the
text area, click the record button (at a time, with the microphone's answer). -/
inductive UserAction where
  | clickTranslate
  | pressEnter
  | clickRecord (now : Int) (media : Option MediaStream)
  deriving DecidableEq, Repr

/-- A user action on the rendered controls, up to the first `await fetch`;
`none` when the control is not rendered or is disabled. -/
def userAction (a : UserAction) (w : World) : Option World :=
  match a with
  | .clickTranslate =>
      if textAreaShown w.view && !translateDisabled w.view then
        some ((handleTranslateBegin w.view w w.view.inputText).getD w)
      else none
  | .pressEnter =>
      if textAreaShown w.view then
        some ((handleTranslateBegin w.view w w.view.inputText).getD w)
      else none
  | .clickRecord now media =>
      if !textAreaShown w.view && !recordDisabled w.view then
        some (if w.view.isRecording then stopRecording w.view w
              else startRecording w.view w now media)
      else none

/-- A sequence of user actions, none of the calls they start having settled. -/
def userRun : List UserAction → World → Option World
  | [], w => some w
  | a :: rest, w => (userAction a w).bind (userRun rest)

/-! ## Initial state (lines 6-30) -/

/-- The first render, with the settings read from storage. -/
def initialView (settings : Settings) : View :=
  { inputText := "", outputText := "", isTranslating := false,
    sourceLang := "Hebrew", targetLang := "English", showSettings := false,
    copySuccess := false, inputMode := "text", isRecording := false,
    audioStream := none, showEditableTranscription := false, recordingError := "",
    settings := settings }

/-- The component after mounting. -/
def initialWorld (settings : Settings) : World :=
  { view := initialView settings, mediaRecorder := none, audioChunks := [],
    recordingTimeout := none, recordingStartTime := none, timers := [],
    nextTimerId := 1, stoppedTracks := [], requests := [], settled := 0 }

/-- The settings of an empty store (lines 25-29). -/
def defaultSettings : Settings :=
  { model := "gpt-4o", lowercase := false, apiKey := "",
    editTranscriptionBeforeTranslate := false, recordingTimeLimit := 5 }

/-- The Voice button (line 326). -/
def switchToVoice (w : World) : World :=
  { w with view := { w.view with inputMode := "voice" } }

/-- Typing in the text area (line 342). -/
def typeText (w : World) (text : String) : World :=
  { w with view := { w.view with inputText := text } }

/-- A recording started by the render `cl` at time `now` on `stream`, during
which the recorder delivers `fragments` in this order. -/
def recordFragments (cl : View) (w : World) (now : Int) (stream : MediaStream)
    (fragments : List (List Nat)) : World :=
  fragments.foldl ondataavailable (startRecording cl w now (some stream))

/-- Settings with a key and the default five-minute limit. -/
def keySettings : Settings := { defaultSettings with apiKey := "sk-1" }

/-- The component in voice mode, nothing recorded yet. -/
def voiceWorld : World := switchToVoice (initialWorld keySettings)

/-- The component in text mode with `hi` typed in. -/
def typedWorld : World := typeText (initialWorld keySettings) "hi"

/-- Lower-casing of the basic Latin letters, on which it agrees with
`String.prototype.toLowerCase`. -/
def asciiLower (s : String) : String := String.mk (s.data.map Char.toLower)

/-! ## Settings and `localStorage` (lines 24-30, 228-247) -/

/-- The page's `localStorage`: what `getItem` returns for each key (`none` is
`null`). -/
def Storage : Type := String → Option String

/-- The method `localStorage.getItem(key)`. -/
def Storage.getItem (st : Storage) (key : String) : Option String := st key

/-- The method `localStorage.setItem(key, value)`. -/
def Storage.setItem (st : Storage) (key value : String) : Storage :=
  fun k => if k = key then some value else st k

/-- A store with no entry. -/
def emptyStorage : Storage := fun _ => none

/-- The component together with the `localStorage` of its page. -/
structure Page where
  app : World
  localStorage : Storage

/-- The value of a digit or letter as `parseInt` reads it. -/
def digitValue (c : Char) : Option Nat :=
  if 48 ≤ c.toNat ∧ c.toNat ≤ 57 then some (c.toNat - 48)
  else if 97 ≤ c.toNat ∧ c.toNat ≤ 122 then some (c.toNat - 87)
  else if 65 ≤ c.toNat ∧ c.toNat ≤ 90 then some (c.toNat - 55)
  else none

/-- The longest run of leading digits of the radix. -/
def takeDigits (radix : Nat) : List Char → List Nat
  | [] => []
  | c :: cs =>
      match digitValue c with
      | some d => if d < radix then d :: takeDigits radix cs else []
      | none => []

/-- The sign `parseInt` reads, and what follows it. -/
def splitSign : List Char → Bool × List Char
  | '-' :: rest => (true, rest)
  | '+' :: rest => (false, rest)
  | cs => (false, cs)

/-- The radix `parseInt` takes when none is given, and what follows the `0x`
prefix when there is one. -/
def splitRadix : List Char → Nat × List Char
  | '0' :: 'x' :: rest => (16, rest)
  | '0' :: 'X' :: rest => (16, rest)
  | cs => (10, cs)

/-- The function `parseInt(s)` with no radix given: `none` is `NaN`.  The value
is the exact integer (no rounding to a double). -/
def parseInt (s : String) : Option Int :=
  let signed := splitSign (s.data.dropWhile isJsWhiteSpace)
  let based := splitRadix signed.2
  let digits := takeDigits based.1 based.2
  if digits = [] then none
  else
    let n : Nat := digits.foldl (fun acc d => acc * based.1 + d) 0
    some (if signed.1 then -(n : Int) else (n : Int))

/-- The expression `parseInt(x) || 5`, for `x` a string or `null`: `NaN` and
`0` are falsy. -/
def parseIntOr5 (x : Option String) : Int :=
  match parseInt (x.getD "null") with
  | some v => if v = 0 then 5 else v
  | none => 5

/-- The expression `x || dflt` for `x` a string or `null`. -/
def stringOr (x : Option String) (dflt : String) : String :=
  match x with
  | some s => if truthy s then s else dflt
  | none => dflt

/-- The initial `settings` read from `localStorage` (lines 24-30). -/
def loadSettings (st : Storage) : Settings :=
  { model := stringOr (st.getItem "model") "gpt-4o"
    lowercase := st.getItem "lowercase" == some "true" || false
    apiKey := stringOr (st.getItem "apiKey") ""
    editTranscriptionBeforeTranslate :=
      st.getItem "editTranscriptionBeforeTranslate" == some "true" || false
    recordingTimeLimit := parseIntOr5 (st.getItem "recordingTimeLimit") }

/-- The page after mounting the component. -/
def initialPage (st : Storage) : Page :=
  { app := initialWorld (loadSettings st), localStorage := st }

/-- What `formData.get` returns for the five controls of the settings form
(lines 465-539): a ticked checkbox gives `on`, an unticked one `null`. -/
structure SettingsForm where
  model : String
  lowercase : Option String
  apiKey : String
  editTranscriptionBeforeTranslate : Option String
  recordingTimeLimit : String

/-- The options of the model `<select>` (lines 489-490). -/
def modelOptions : List String := ["gpt-4o", "gpt-4o-mini"]

/-- The object `newSettings` of lines 232-238. -/
def newSettings (formData : SettingsForm) : Settings :=
  { model := formData.model
    lowercase := formData.lowercase == some "on"
    apiKey := formData.apiKey
    editTranscriptionBeforeTranslate := formData.editTranscriptionBeforeTranslate == some "on"
    recordingTimeLimit := min (max (parseIntOr5 (some formData.recordingTimeLimit)) 1) 30 }

/-- The handler `handleSettingsSave` (lines 228-247). -/
def handleSettingsSave (p : Page) (formData : SettingsForm) : Page :=
  let s := newSettings formData
  { app := { p.app with view := { p.app.view with settings := s, showSettings := false } }
    localStorage :=
      ((((p.localStorage.setItem "model" s.model).setItem "lowercase"
        (toString s.lowercase)).setItem "apiKey" s.apiKey).setItem
        "editTranscriptionBeforeTranslate"
        (toString s.editTranscriptionBeforeTranslate)).setItem "recordingTimeLimit"
        (toString s.recordingTimeLimit) }

/-! ## Other controls (lines 290-334, 541-548) -/

/-- The `disabled` attribute of the swap button (line 293). -/
def swapDisabled (v : View) : Bool :=
  v.sourceLang == "Hebrew" || v.targetLang == "Hebrew"

/-- The Text button (lines 314-317). -/
def switchToText (w : World) : World :=
  { w with view := { w.view with inputMode := "text", showEditableTranscription := false } }

/-- The Cancel button of the settings panel (line 544). -/
def cancelSettings (w : World) : World :=
  { w with view := { w.view with showSettings := false } }

/-- The actions the specification calls a reset: cancelling the settings panel,
swapping the languages, switching the input mode. -/
inductive ResetAction where
  | cancelSettings
  | swapLanguages
  | textMode
  | voiceMode
  deriving DecidableEq, Repr

/-- What each of these actions does to the page. -/
def resetAction (a : ResetAction) (p : Page) : Page :=
  match a with
  | .cancelSettings => { p with app := cancelSettings p.app }
  | .swapLanguages =>
      { p with app := { p.app with view := languageEffect (swapLanguages p.app.view) } }
  | .textMode => { p with app := switchToText p.app }
  | .voiceMode => { p with app := switchToVoice p.app }

/-- A page whose component holds a text and its translation. -/
def translatedPage : Page :=
  { app := { initialWorld keySettings with
      view := { initialView keySettings with inputText := "hi", outputText := "shalom" } }
    localStorage := emptyStorage }

/-! ## Language pair: proofs -/

theorem languageEffect_inv (v : View) (h : v.targetLang ≠ "Hebrew") :
    LangInv (languageEffect v) := by
  unfold languageEffect LangInv
  by_cases hc : v.targetLang = v.sourceLang ∨ (v.sourceLang = "Hebrew" ∧ v.targetLang = "Hebrew")
  · rw [if_pos hc]
    by_cases he : v.sourceLang = "English"
    · simp [he]
    · simp [he]
  · rw [if_neg hc]
    refine ⟨fun hst => hc (Or.inl hst.symm), h⟩

theorem languageEffect_stable (v : View) (h : LangInv v) : languageEffect v = v := by
  unfold languageEffect
  rw [if_neg]
  rintro (h1 | ⟨_, h2⟩)
  · exact h.1 h1.symm
  · exact h.2 h2

theorem langAction_target (a : LangAction) (v v' : View) (h : LangInv v)
    (ha : langAction a v = some v') : v'.targetLang ≠ "Hebrew" := by
  cases a with
  | selectSource lang =>
      simp only [langAction] at ha
      split at ha
      · cases ha; exact h.2
      · cases ha
  | selectTarget lang =>
      simp only [langAction] at ha
      split at ha
      next hm =>
        cases ha
        simp only [getAvailableLanguages, Bool.false_eq_true, if_false, List.mem_filter,
          Bool.and_eq_true, bne_iff_ne] at hm
        exact hm.2.1
      · cases ha
  | swap =>
      simp only [langAction, swapLanguages] at ha
      split at ha
      next hg => cases ha; exact hg.1
      · cases ha; exact h.2

theorem langStep_inv (a : LangAction) (v v' : View) (h : LangInv v)
    (ha : langStep a v = some v') : LangInv v' := by
  unfold langStep at ha
  cases hq : langAction a v with
  | none => rw [hq] at ha; cases ha
  | some u =>
      rw [hq] at ha
      cases ha
      exact languageEffect_inv u (langAction_target a v u h hq)

theorem langRun_inv (acts : List LangAction) : ∀ (v v' : View), LangInv v →
    langRun acts v = some v' → LangInv v' := by
  induction acts with
  | nil => intro v v' h hr; cases hr; exact h
  | cons a rest ih =>
      intro v v' h hr
      simp only [langRun] at hr
      cases hq : langStep a v with
      | none => rw [hq] at hr; cases hr
      | some u =>
          rw [hq] at hr
          exact ih u v' (langStep_inv a v u h hq) hr

theorem jsTrim_eq_empty_iff (s : String) : jsTrim s = "" ↔ isBlank s = true := by
  unfold jsTrim isBlank
  rw [List.all_eq_true]
  constructor
  · intro h
    have h1 : ((s.data.dropWhile isJsWhiteSpace).reverse.dropWhile isJsWhiteSpace).reverse = [] := by
      have := congrArg String.data h
      simpa using this
    rw [List.reverse_eq_nil_iff, List.dropWhile_eq_nil_iff] at h1
    have h2 : s.data.dropWhile isJsWhiteSpace = [] := by
      by_contra hne
      have hhead := List.head_dropWhile_not isJsWhiteSpace s.data hne
      have hmem : (s.data.dropWhile isJsWhiteSpace).head hne ∈
          (s.data.dropWhile isJsWhiteSpace).reverse :=
        List.mem_reverse.mpr (List.head_mem hne)
      rw [h1 _ hmem] at hhead
      exact Bool.noConfusion hhead
    exact List.dropWhile_eq_nil_iff.mp h2
  · intro h
    have h2 : s.data.dropWhile isJsWhiteSpace = [] := List.dropWhile_eq_nil_iff.mpr h
    rw [h2]
    rfl

theorem truthy_jsTrim (s : String) : truthy (jsTrim s) = !isBlank s := by
  unfold truthy
  by_cases h : isBlank s = true
  · rw [h, (jsTrim_eq_empty_iff s).mpr h]; rfl
  · have hne : jsTrim s ≠ "" := fun he => h ((jsTrim_eq_empty_iff s).mp he)
    simp [h, hne]

theorem truthy_eq_false_iff (s : String) : truthy s = false ↔ s = "" := by
  simp [truthy]

theorem handleTranslateBegin_refused (cl : View) (w : World) (text : String)
    (h : isBlank text = true ∨ cl.settings.apiKey = "") :
    handleTranslateBegin cl w text = none := by
  unfold handleTranslateBegin
  rw [if_pos]
  rw [truthy_jsTrim]
  rcases h with h | h
  · simp [h]
  · simp [h, truthy]

theorem handleTranslateBegin_accepted (cl : View) (w : World) (text : String)
    (h1 : isBlank text = false) (h2 : cl.settings.apiKey ≠ "") :
    handleTranslateBegin cl w text = some { w with
      view := { w.view with showEditableTranscription := false, isTranslating := true }
      requests := w.requests ++ [translationRequest cl text] } := by
  unfold handleTranslateBegin
  rw [if_neg]
  rw [truthy_jsTrim]
  simp [h1, h2, truthy]

theorem processAudioBegin_refused (cl : View) (w : World) (blob : Blob)
    (h : cl.settings.apiKey = "") : processAudioBegin cl w blob = none := by
  unfold processAudioBegin
  rw [if_pos]
  simp [h, truthy]

theorem processAudioBegin_accepted (cl : View) (w : World) (blob : Blob)
    (h : cl.settings.apiKey ≠ "") :
    processAudioBegin cl w blob = some { w with
      view := { w.view with isTranslating := true }
      requests := w.requests ++ [.transcription cl.settings.apiKey blob] } := by
  unfold processAudioBegin
  rw [if_neg]
  simp [h, truthy]

/-- C1: from source 'Hebrew', target 'English', after any sequence of language
changes the UI offers (a source among the eight languages, a target offered by
`getAvailableLanguages(false)`, a swap), each followed by the effect of lines
55-59, source and target differ, the target is not 'Hebrew', and the effect has
nothing left to change. -/
theorem language_pair_invariant (settings : Settings) (acts : List LangAction) (v : View)
    (h : langRun acts (initialView settings) = some v) :
    v.sourceLang ≠ v.targetLang ∧ v.targetLang ≠ "Hebrew" ∧ languageEffect v = v := by
  have h0 : LangInv (initialView settings) := by
    constructor
    · show "Hebrew" ≠ "English"
      decide
    · show "English" ≠ "Hebrew"
      decide
  have hv : LangInv v := langRun_inv acts (initialView settings) v h0 h
  exact ⟨hv.1, hv.2, languageEffect_stable v hv⟩

theorem language_pair_invariant_witness :
    langRun [.selectSource "English", .swap, .selectTarget "French", .selectSource "French"]
        (initialView defaultSettings)
      = some { initialView defaultSettings with sourceLang := "French", targetLang := "English" }
    ∧ ("French" ≠ "English" ∧ "English" ≠ "Hebrew") :=
  ⟨by decide,
   let h := language_pair_invariant defaultSettings
     [.selectSource "English", .swap, .selectTarget "French", .selectSource "French"]
     { initialView defaultSettings with sourceLang := "French", targetLang := "English" }
     (by decide)
   ⟨h.1, h.2.1⟩⟩

/-- C2: with an empty `settings.apiKey`, `handleTranslate(text)` and
`processAudioWithWhisper(blob)` return at once: no request is made and nothing
of the component changes; the same holds for `handleTranslate(text)` when
`text` is empty or white space only. -/
theorem guards_refuse (toLowerCase : String → String) (cl : View) (w : World) (text : String)
    (blob : Blob) (r : TranscriptionResponse) (t : TranslationResponse) :
    (cl.settings.apiKey = "" →
      handleTranslate toLowerCase cl w text t = w ∧
      processAudioWithWhisper toLowerCase cl w blob r t = w) ∧
    (isBlank text = true → handleTranslate toLowerCase cl w text t = w) := by
  refine ⟨fun h => ⟨?_, ?_⟩, fun h => ?_⟩
  · simp only [handleTranslate, handleTranslateBegin_refused cl w text (Or.inr h)]
  · simp only [processAudioWithWhisper, processAudioBegin_refused cl w blob h]
  · simp only [handleTranslate, handleTranslateBegin_refused cl w text (Or.inl h)]

theorem guards_refuse_witness :
    (handleTranslate asciiLower (initialView defaultSettings) (initialWorld defaultSettings)
        "hello" (.ok "shalom") = initialWorld defaultSettings ∧
      processAudioWithWhisper asciiLower (initialView defaultSettings)
        (initialWorld defaultSettings) ⟨[[1, 2]], "audio/mp3"⟩ (.ok "hello") (.ok "shalom")
        = initialWorld defaultSettings) ∧
    handleTranslate asciiLower (initialView { defaultSettings with apiKey := "sk-1" })
        (initialWorld { defaultSettings with apiKey := "sk-1" }) " \t\n" (.ok "shalom")
      = initialWorld { defaultSettings with apiKey := "sk-1" } :=
  ⟨(guards_refuse asciiLower (initialView defaultSettings) (initialWorld defaultSettings)
      "hello" ⟨[[1, 2]], "audio/mp3"⟩ (.ok "hello") (.ok "shalom")).1 (by decide),
   (guards_refuse asciiLower (initialView { defaultSettings with apiKey := "sk-1" })
      (initialWorld { defaultSettings with apiKey := "sk-1" }) " \t\n" ⟨[], ""⟩ .failed
      (.ok "shalom")).2 (by decide)⟩

/-- C3: with `editTranscriptionBeforeTranslate` set, a successful transcription
returning `text` leaves `inputText = text` and `showEditableTranscription =
true`; the only request made is the transcription request, so no translation
request is made, and `outputText` is untouched. -/
theorem review_before_translate (toLowerCase : String → String) (cl : View) (w : World)
    (blob : Blob) (text : String) (t : TranslationResponse)
    (hedit : cl.settings.editTranscriptionBeforeTranslate = true)
    (hkey : cl.settings.apiKey ≠ "") :
    (processAudioWithWhisper toLowerCase cl w blob (.ok text) t).view.inputText = text ∧
    (processAudioWithWhisper toLowerCase cl w blob (.ok text) t).view.showEditableTranscription
      = true ∧
    (processAudioWithWhisper toLowerCase cl w blob (.ok text) t).requests
      = w.requests ++ [.transcription cl.settings.apiKey blob] ∧
    (processAudioWithWhisper toLowerCase cl w blob (.ok text) t).view.outputText
      = w.view.outputText ∧
    (processAudioWithWhisper toLowerCase cl w blob (.ok text) t).view.isTranslating = false := by
  simp [processAudioWithWhisper, processAudioBegin_accepted cl w blob hkey, hedit]

theorem review_before_translate_witness :
    (processAudioWithWhisper asciiLower
        (initialView { defaultSettings with apiKey := "sk-1", editTranscriptionBeforeTranslate := true })
        (initialWorld { defaultSettings with apiKey := "sk-1", editTranscriptionBeforeTranslate := true })
        ⟨[[1, 2]], "audio/mp3"⟩ (.ok "shalom") (.ok "hello")).requests
      = [.transcription "sk-1" ⟨[[1, 2]], "audio/mp3"⟩] :=
  (review_before_translate asciiLower
    (initialView { defaultSettings with apiKey := "sk-1", editTranscriptionBeforeTranslate := true })
    (initialWorld { defaultSettings with apiKey := "sk-1", editTranscriptionBeforeTranslate := true })
    ⟨[[1, 2]], "audio/mp3"⟩ "shalom" (.ok "hello") rfl (by decide)).2.2.1

/-- C4, as stated, fails: with `editTranscriptionBeforeTranslate = false`
and a key set, a successful transcription returning the empty text makes the
transcription request only; no translation request is issued. -/
theorem auto_translate_blank_counterexample :
    (processAudioWithWhisper asciiLower
        (initialView { defaultSettings with apiKey := "sk-1" })
        (initialWorld { defaultSettings with apiKey := "sk-1" })
        ⟨[[1, 2]], "audio/mp3"⟩ (.ok "") (.ok "hello")).requests
      = [.transcription "sk-1" ⟨[[1, 2]], "audio/mp3"⟩] ∧
    ((processAudioWithWhisper asciiLower
        (initialView { defaultSettings with apiKey := "sk-1" })
        (initialWorld { defaultSettings with apiKey := "sk-1" })
        ⟨[[1, 2]], "audio/mp3"⟩ (.ok "") (.ok "hello")).requests.filter
          Request.isTranslation).length ≠ 1 := by
  decide

/-- C4, amended: with `editTranscriptionBeforeTranslate = false` and a key
set, a successful transcription returning `text` is followed by exactly one
translation request, for that text, when `text` is not blank, and by none when
it is blank (the guard of `handleTranslate`). -/
theorem auto_translate_once (toLowerCase : String → String) (cl : View) (w : World)
    (blob : Blob) (text : String) (t : TranslationResponse)
    (hedit : cl.settings.editTranscriptionBeforeTranslate = false)
    (hkey : cl.settings.apiKey ≠ "") :
    (processAudioWithWhisper toLowerCase cl w blob (.ok text) t).requests
      = w.requests ++ [.transcription cl.settings.apiKey blob] ++
          (if isBlank text then [] else [translationRequest cl text]) ∧
    (processAudioWithWhisper toLowerCase cl w blob (.ok text) t).view.inputText = text := by
  simp only [processAudioWithWhisper, processAudioBegin_accepted cl w blob hkey, hedit,
    Bool.false_eq_true, if_false, handleTranslate]
  cases hb : isBlank text with
  | true =>
      rw [handleTranslateBegin_refused cl _ text (Or.inl hb)]
      simp
  | false =>
      rw [handleTranslateBegin_accepted cl _ text hb hkey]
      simp [handleTranslateEnd]

theorem auto_translate_once_witness :
    (processAudioWithWhisper asciiLower
        (initialView { defaultSettings with apiKey := "sk-1" })
        (initialWorld { defaultSettings with apiKey := "sk-1" })
        ⟨[[1, 2]], "audio/mp3"⟩ (.ok "shalom") (.ok "hello")).requests
      = [.transcription "sk-1" ⟨[[1, 2]], "audio/mp3"⟩,
         .translation "sk-1" "gpt-4o" "Hebrew" "English" "shalom"] :=
  (auto_translate_once asciiLower
    (initialView { defaultSettings with apiKey := "sk-1" })
    (initialWorld { defaultSettings with apiKey := "sk-1" })
    ⟨[[1, 2]], "audio/mp3"⟩ "shalom" (.ok "hello") rfl (by decide)).1

/-- C5, as stated, fails: Hebrew to English, `lowercase` off, the service
returns `" Hello world "`; `outputText` is `"Hello world"`, not the content
verbatim. -/
theorem output_verbatim_counterexample :
    (handleTranslate asciiLower (initialView { defaultSettings with apiKey := "sk-1" })
        (initialWorld { defaultSettings with apiKey := "sk-1" }) "שלום עולם"
        (.ok " Hello world ")).view.outputText = "Hello world" ∧
    (handleTranslate asciiLower (initialView { defaultSettings with apiKey := "sk-1" })
        (initialWorld { defaultSettings with apiKey := "sk-1" }) "שלום עולם"
        (.ok " Hello world ")).view.outputText ≠ " Hello world " := by
  decide

/-- C5, amended: with a key set and a text that is not blank, when the service
returns content `c`, `outputText` after `handleTranslate` is `c.trim()`,
lower-cased when `settings.lowercase` is set and as it is otherwise. -/
theorem output_case (toLowerCase : String → String) (cl : View) (w : World) (text c : String)
    (hkey : cl.settings.apiKey ≠ "") (htext : isBlank text = false) :
    (handleTranslate toLowerCase cl w text (.ok c)).view.outputText =
      (if cl.settings.lowercase then toLowerCase (jsTrim c) else jsTrim c) ∧
    (handleTranslate toLowerCase cl w text (.ok c)).view.isTranslating = false := by
  simp [handleTranslate, handleTranslateBegin_accepted cl w text htext hkey, handleTranslateEnd]

theorem output_case_witness :
    (handleTranslate asciiLower (initialView { defaultSettings with apiKey := "sk-1" })
        (initialWorld { defaultSettings with apiKey := "sk-1" }) "שלום עולם"
        (.ok "Hello world")).view.outputText = "Hello world" ∧
    (handleTranslate asciiLower
        (initialView { defaultSettings with apiKey := "sk-1", lowercase := true })
        (initialWorld { defaultSettings with apiKey := "sk-1", lowercase := true }) "שלום עולם"
        (.ok "Hello world")).view.outputText = "hello world" :=
  ⟨(output_case asciiLower (initialView { defaultSettings with apiKey := "sk-1" })
      (initialWorld { defaultSettings with apiKey := "sk-1" }) "שלום עולם" "Hello world"
      (by decide) (by decide)).1,
   (output_case asciiLower
      (initialView { defaultSettings with apiKey := "sk-1", lowercase := true })
      (initialWorld { defaultSettings with apiKey := "sk-1", lowercase := true }) "שלום עולם"
      "Hello world" (by decide) (by decide)).1⟩

theorem recordingDuration_gt_iff (w : World) (endTime limit : Int) :
    recordingDuration w endTime > (limit : ℚ) * 60 ↔
      endTime - w.recordingStartTime.getD 0 > limit * 60 * 1000 := by
  unfold recordingDuration
  rw [gt_iff_lt, gt_iff_lt, lt_div_iff₀ (by norm_num : (0 : ℚ) < 1000)]
  constructor
  · intro h
    have h' : ((limit * 60 * 1000 : Int) : ℚ) < ((endTime - w.recordingStartTime.getD 0 : Int) : ℚ) := by
      push_cast
      linarith
    exact_mod_cast h'
  · intro h
    have h' : ((limit * 60 * 1000 : Int) : ℚ) < ((endTime - w.recordingStartTime.getD 0 : Int) : ℚ) := by
      exact_mod_cast h
    push_cast at h'
    linarith

/-- C6: when the recorder stops after more than `60 * recordingTimeLimit`
seconds, the `onstop` handler sets the 'Recording too long' error, empties
`audioChunks` and makes no request. -/
theorem late_stop_rejected (toLowerCase : String → String) (cl : View) (w : World)
    (endTime : Int) (r : TranscriptionResponse) (t : TranslationResponse)
    (h : recordingDuration w endTime > (cl.settings.recordingTimeLimit : ℚ) * 60) :
    (onstop toLowerCase cl w endTime r t).view.recordingError =
      "Recording too long. Please limit to " ++ toString cl.settings.recordingTimeLimit ++
        " minutes." ∧
    (onstop toLowerCase cl w endTime r t).audioChunks = [] ∧
    (onstop toLowerCase cl w endTime r t).requests = w.requests ∧
    (onstop toLowerCase cl w endTime r t).settled = w.settled := by
  unfold onstop
  rw [if_pos h]
  exact ⟨rfl, rfl, rfl, rfl⟩

theorem late_stop_rejected_witness :
    (onstop asciiLower (initialView { defaultSettings with apiKey := "sk-1", recordingTimeLimit := 1 })
        { initialWorld { defaultSettings with apiKey := "sk-1", recordingTimeLimit := 1 } with
          recordingStartTime := some 0, audioChunks := [[1, 2], [3]] }
        61000 (.ok "shalom") (.ok "hello")).view.recordingError
      = "Recording too long. Please limit to 1 minutes." ∧
    (onstop asciiLower (initialView { defaultSettings with apiKey := "sk-1", recordingTimeLimit := 1 })
        { initialWorld { defaultSettings with apiKey := "sk-1", recordingTimeLimit := 1 } with
          recordingStartTime := some 0, audioChunks := [[1, 2], [3]] }
        61000 (.ok "shalom") (.ok "hello")).requests = [] :=
  let h := late_stop_rejected asciiLower
    (initialView { defaultSettings with apiKey := "sk-1", recordingTimeLimit := 1 })
    { initialWorld { defaultSettings with apiKey := "sk-1", recordingTimeLimit := 1 } with
      recordingStartTime := some 0, audioChunks := [[1, 2], [3]] }
    61000 (.ok "shalom") (.ok "hello")
    ((recordingDuration_gt_iff _ 61000 1).mpr (by decide))
  ⟨h.1, h.2.2.1⟩

theorem foldl_ondataavailable (fragments : List (List Nat)) : ∀ (w : World),
    fragments.foldl ondataavailable w = { w with audioChunks := w.audioChunks ++ fragments } := by
  induction fragments with
  | nil => intro w; simp
  | cons f rest ih =>
      intro w
      rw [List.foldl_cons, ih]
      simp [ondataavailable]

theorem handleTranslate_audioChunks (toLowerCase : String → String) (cl : View) (w : World)
    (text : String) (t : TranslationResponse) :
    (handleTranslate toLowerCase cl w text t).audioChunks = w.audioChunks := by
  unfold handleTranslate handleTranslateBegin
  by_cases hg : (!truthy (jsTrim text) || !truthy cl.settings.apiKey) = true
  · simp [hg]
  · simp [hg, handleTranslateEnd]

theorem handleTranslate_transcriptions (toLowerCase : String → String) (cl : View) (w : World)
    (text : String) (t : TranslationResponse) :
    (handleTranslate toLowerCase cl w text t).requests.filter Request.isTranscription
      = w.requests.filter Request.isTranscription := by
  unfold handleTranslate handleTranslateBegin
  by_cases hg : (!truthy (jsTrim text) || !truthy cl.settings.apiKey) = true
  · simp [hg]
  · simp [hg, handleTranslateEnd, translationRequest, Request.isTranscription]

theorem processAudio_audioChunks (toLowerCase : String → String) (cl : View) (w : World)
    (blob : Blob) (r : TranscriptionResponse) (t : TranslationResponse) :
    (processAudioWithWhisper toLowerCase cl w blob r t).audioChunks = w.audioChunks := by
  unfold processAudioWithWhisper processAudioBegin
  by_cases hg : (!truthy cl.settings.apiKey) = true
  · simp [hg]
  · cases r with
    | failed => simp [hg]
    | ok text =>
        by_cases he : cl.settings.editTranscriptionBeforeTranslate = true
        · simp [hg, he]
        · simp [hg, he, handleTranslate_audioChunks]

theorem processAudio_transcriptions (toLowerCase : String → String) (cl : View) (w : World)
    (blob : Blob) (r : TranscriptionResponse) (t : TranslationResponse) :
    (processAudioWithWhisper toLowerCase cl w blob r t).requests.filter Request.isTranscription
      = w.requests.filter Request.isTranscription ++
          (if cl.settings.apiKey = "" then []
           else [Request.transcription cl.settings.apiKey blob]) := by
  by_cases hkey : cl.settings.apiKey = ""
  · simp [processAudioWithWhisper, processAudioBegin_refused cl w blob hkey, hkey]
  · simp only [processAudioWithWhisper, processAudioBegin_accepted cl w blob hkey, hkey, if_false]
    cases r with
    | failed => simp [Request.isTranscription]
    | ok text =>
        by_cases he : cl.settings.editTranscriptionBeforeTranslate = true
        · simp [he, Request.isTranscription]
        · simp [he, handleTranslate_transcriptions, Request.isTranscription]

/-- C8: a recording during which `fragments` are delivered, stopped within
`60 * recordingTimeLimit` seconds: `audioChunks` holds exactly the fragments in
delivery order; `onstop` builds one blob of type `audio/mp3` with these parts,
hands it to `processAudioWithWhisper` once, and leaves `audioChunks` empty;
when a key is set, exactly one transcription request, carrying that blob, is
added. -/
theorem stop_within_limit (toLowerCase : String → String) (cl : View) (w : World) (now : Int)
    (stream : MediaStream) (fragments : List (List Nat)) (endTime : Int)
    (r : TranscriptionResponse) (t : TranslationResponse)
    (h : recordingDuration (recordFragments cl w now stream fragments) endTime
          ≤ (cl.settings.recordingTimeLimit : ℚ) * 60) :
    (recordFragments cl w now stream fragments).audioChunks = fragments ∧
    onstop toLowerCase cl (recordFragments cl w now stream fragments) endTime r t =
      (fun w2 : World => { w2 with view := { w2.view with audioStream := none } })
        (processAudioWithWhisper toLowerCase cl
          { recordFragments cl w now stream fragments with audioChunks := [] }
          { parts := fragments, type := "audio/mp3" } r t) ∧
    (onstop toLowerCase cl (recordFragments cl w now stream fragments) endTime r t).audioChunks
      = [] ∧
    (onstop toLowerCase cl (recordFragments cl w now stream fragments) endTime
        r t).requests.filter Request.isTranscription
      = w.requests.filter Request.isTranscription ++
          (if cl.settings.apiKey = "" then []
           else [Request.transcription cl.settings.apiKey
                  { parts := fragments, type := "audio/mp3" }]) := by
  have hchunks : (recordFragments cl w now stream fragments).audioChunks = fragments := by
    unfold recordFragments
    rw [foldl_ondataavailable]
    simp [startRecording]
  have hreq : (recordFragments cl w now stream fragments).requests = w.requests := by
    unfold recordFragments
    rw [foldl_ondataavailable]
    simp only [startRecording, clearRecordingTimeout]
    cases w.recordingTimeout <;> rfl
  have hstop : onstop toLowerCase cl (recordFragments cl w now stream fragments) endTime r t =
      (fun w2 : World => { w2 with view := { w2.view with audioStream := none } })
        (processAudioWithWhisper toLowerCase cl
          { recordFragments cl w now stream fragments with audioChunks := [] }
          { parts := fragments, type := "audio/mp3" } r t) := by
    unfold onstop
    rw [if_neg (not_lt.mpr h), hchunks]
  refine ⟨hchunks, hstop, ?_, ?_⟩
  · rw [hstop]
    simp [processAudio_audioChunks]
  · rw [hstop]
    simp only
    rw [processAudio_transcriptions]
    simp [hreq]

theorem recordingDuration_le_iff (w : World) (endTime limit : Int) :
    recordingDuration w endTime ≤ (limit : ℚ) * 60 ↔
      endTime - w.recordingStartTime.getD 0 ≤ limit * 60 * 1000 := by
  rw [← not_lt, ← not_lt]
  exact not_congr (recordingDuration_gt_iff w endTime limit)

theorem stop_within_limit_witness :
    (recordFragments voiceWorld.view voiceWorld 0 ⟨1⟩ [[1, 2], [3], [4, 5]]).audioChunks
      = [[1, 2], [3], [4, 5]] ∧
    (onstop asciiLower voiceWorld.view
        (recordFragments voiceWorld.view voiceWorld 0 ⟨1⟩ [[1, 2], [3], [4, 5]]) 300000
        (.ok "shalom") (.ok "hello")).requests.filter Request.isTranscription
      = [Request.transcription "sk-1" { parts := [[1, 2], [3], [4, 5]], type := "audio/mp3" }] :=
  let h := stop_within_limit asciiLower voiceWorld.view voiceWorld 0 ⟨1⟩ [[1, 2], [3], [4, 5]]
    300000 (.ok "shalom") (.ok "hello")
    ((recordingDuration_le_iff _ 300000 5).mpr (by decide))
  ⟨h.1, h.2.2.2⟩

theorem startRecording_split (cl : View) (w : World) (now : Int) (stream : MediaStream) :
    startRecording cl w now (some stream)
      = startRecordingArm cl (startRecordingAcquire w now stream) stream := by
  simp only [startRecording, startRecordingArm, startRecordingAcquire]

theorem createRoot_disarms_timer (cl : View) (w : World) (now : Int) (stream : MediaStream)
    (h : cl.audioStream ≠ some stream) :
    ∀ t ∈ (recordingStarted .createRoot cl w now stream).timers, t.id ≠ w.nextTimerId := by
  intro t ht
  have hview : (startRecording cl w now (some stream)).view.audioStream = some stream := by
    simp [startRecording]
  have hne : ¬ (startRecording cl w now (some stream)).view.audioStream = cl.audioStream := by
    rw [hview]
    exact fun he => h he.symm
  have hid : (startRecording cl w now (some stream)).recordingTimeout = some w.nextTimerId := by
    simp only [startRecording, clearRecordingTimeout, clearTimeout]
    cases w.recordingTimeout <;> rfl
  have htimers : (recordingStarted .createRoot cl w now stream).timers
      = (startRecording cl w now (some stream)).timers.filter
          (fun u => u.id != w.nextTimerId) := by
    simp only [recordingStarted, commitRender, if_neg hne, effectCleanup, clearRecordingTimeout,
      hid, clearTimeout]
    cases cl.audioStream <;> rfl
  rw [htimers, List.mem_filter] at ht
  simpa using ht.2

theorem timeLimitCallback_stale (cl : View) (w : World) (h : cl.isRecording = false) :
    timeLimitCallback cl w = { w with view := { w.view with
      recordingError := "Recording time limit reached (" ++
        toString cl.settings.recordingTimeLimit ++ " minutes)" } } := by
  unfold timeLimitCallback stopRecording
  cases hm : w.mediaRecorder <;> simp [h, hm]

/-- C7 fails on the code, however the component is mounted.  Voice mode, the
five-minute limit, the record button clicked at time 0 with the microphone
granted, one fragment delivered, then the 300000 ms of the limit elapse.
Under `createRoot` the cleanup of lines 32-41 has disarmed the timer at the
re-render, so nothing fires.  Under a legacy root the timer fires, but its
callback calls the `stopRecording` of the render that saw `isRecording =
false`, which does nothing.  Either way the recorder is still recording, no
track is stopped, `isRecording` is `true` and the fragment is still buffered. -/
theorem timer_expiry_leaves_recording_on :
    userAction (.clickRecord 0 (some ⟨1⟩)) voiceWorld
      = some (startRecording voiceWorld.view voiceWorld 0 (some ⟨1⟩)) ∧
    (startRecording voiceWorld.view voiceWorld 0 (some ⟨1⟩)).timers
      = [{ id := 1, delay := 300000, closure := voiceWorld.view }] ∧
    (recordingStarted .createRoot voiceWorld.view voiceWorld 0 ⟨1⟩).recordingTimeout = some 1 ∧
    (recordingStarted .createRoot voiceWorld.view voiceWorld 0 ⟨1⟩).timers = [] ∧
    timerFires 1 (ondataavailable (recordingStarted .createRoot voiceWorld.view voiceWorld 0 ⟨1⟩)
      [1, 2, 3]) = none ∧
    (ondataavailable (recordingStarted .createRoot voiceWorld.view voiceWorld 0 ⟨1⟩)
      [1, 2, 3]).view.isRecording = true ∧
    (ondataavailable (recordingStarted .createRoot voiceWorld.view voiceWorld 0 ⟨1⟩)
      [1, 2, 3]).mediaRecorder
      = some { stream := ⟨1⟩, recording := true, closure := voiceWorld.view } ∧
    (ondataavailable (recordingStarted .createRoot voiceWorld.view voiceWorld 0 ⟨1⟩)
      [1, 2, 3]).stoppedTracks = [] ∧
    (ondataavailable (recordingStarted .createRoot voiceWorld.view voiceWorld 0 ⟨1⟩)
      [1, 2, 3]).audioChunks = [[1, 2, 3]] ∧
    (ondataavailable (recordingStarted .createRoot voiceWorld.view voiceWorld 0 ⟨1⟩)
      [1, 2, 3]).view.recordingError = "" ∧
    (recordingStarted .legacy voiceWorld.view voiceWorld 0 ⟨1⟩).timers
      = [{ id := 1, delay := 300000, closure := voiceWorld.view }] ∧
    (timerFires 1 (ondataavailable (recordingStarted .legacy voiceWorld.view voiceWorld 0 ⟨1⟩)
      [1, 2, 3])).map (fun w => w.view.isRecording)
      = some (true) ∧
    (timerFires 1 (ondataavailable (recordingStarted .legacy voiceWorld.view voiceWorld 0 ⟨1⟩)
      [1, 2, 3])).map (fun w => w.mediaRecorder)
      = some (some { stream := ⟨1⟩, recording := true, closure := voiceWorld.view }) ∧
    (timerFires 1 (ondataavailable (recordingStarted .legacy voiceWorld.view voiceWorld 0 ⟨1⟩)
      [1, 2, 3])).map (fun w => w.stoppedTracks)
      = some ([]) ∧
    (timerFires 1 (ondataavailable (recordingStarted .legacy voiceWorld.view voiceWorld 0 ⟨1⟩)
      [1, 2, 3])).map (fun w => w.audioChunks)
      = some ([[1, 2, 3]]) ∧
    (timerFires 1 (ondataavailable (recordingStarted .legacy voiceWorld.view voiceWorld 0 ⟨1⟩)
      [1, 2, 3])).map (fun w => w.timers)
      = some ([]) ∧
    (timerFires 1 (ondataavailable (recordingStarted .legacy voiceWorld.view voiceWorld 0 ⟨1⟩)
      [1, 2, 3])).map (fun w => w.view.recordingError)
      = some ("Recording time limit reached (5 minutes)") ∧
    (timerFires 1 (ondataavailable (recordingStarted .legacy voiceWorld.view voiceWorld 0 ⟨1⟩)
      [1, 2, 3])).map (fun w => recordDisabled w.view)
      = some (true) := by
  repeat' apply And.intro
  all_goals decide

/-- C9 fails on the code: in voice mode the microphone is refused, so
`recordingError` is set; the record button is then disabled and a click on it
does nothing, although `startRecording`, were it called, would clear the
message. -/
theorem error_disables_record_button :
    (startRecording voiceWorld.view voiceWorld 0 none).view.recordingError
      = "Error accessing microphone. Please check permissions." ∧
    recordDisabled (startRecording voiceWorld.view voiceWorld 0 none).view = true ∧
    userAction (.clickRecord 1000 (some ⟨1⟩)) (startRecording voiceWorld.view voiceWorld 0 none)
      = none ∧
    (startRecording (startRecording voiceWorld.view voiceWorld 0 none).view
      (startRecording voiceWorld.view voiceWorld 0 none) 1000 (some ⟨1⟩)).view.recordingError
      = "" := by
  decide

/-- C10 fails on the code: in text mode with `hi` typed and a key set, Enter
starts a translation request and sets `isTranslating`; a second Enter, before
the first call settles, starts another one, so two calls are in flight.  The
Translate button is disabled in that state. -/
theorem enter_twice_two_in_flight :
    (userRun [.pressEnter] typedWorld).map (fun w => (w.view.isTranslating, w.inFlight))
      = some (true, 1) ∧
    (userRun [.pressEnter, .pressEnter] typedWorld).map
        (fun w => (w.view.isTranslating, w.inFlight, w.requests))
      = some (true, 2, [.translation "sk-1" "gpt-4o" "Hebrew" "English" "hi",
                        .translation "sk-1" "gpt-4o" "Hebrew" "English" "hi"]) ∧
    userRun [.pressEnter, .clickTranslate] typedWorld = none := by
  decide

/-- C11: `swapLanguages` changes nothing when the source or the target is
'Hebrew', and for every other pair exchanges the two (new source = old target,
new target = old source, nothing else touched); the swap button is disabled in
exactly the refused cases. -/
theorem swap_refused_or_exchanged (v : View) :
    (v.sourceLang = "Hebrew" ∨ v.targetLang = "Hebrew" → swapLanguages v = v) ∧
    (v.sourceLang ≠ "Hebrew" → v.targetLang ≠ "Hebrew" →
      swapLanguages v = { v with sourceLang := v.targetLang, targetLang := v.sourceLang }) ∧
    (swapDisabled v = true ↔ (v.sourceLang = "Hebrew" ∨ v.targetLang = "Hebrew")) := by
  refine ⟨?_, ?_, ?_⟩
  · intro h
    unfold swapLanguages
    rw [if_neg]
    rintro ⟨h1, h2⟩
    rcases h with h | h
    · exact h1 h
    · exact h2 h
  · intro h1 h2
    unfold swapLanguages
    rw [if_pos ⟨h1, h2⟩]
  · simp [swapDisabled]

theorem swap_refused_or_exchanged_witness :
    swapLanguages (initialView defaultSettings) = initialView defaultSettings ∧
    swapLanguages { initialView defaultSettings with sourceLang := "French", targetLang := "Spanish" }
      = { initialView defaultSettings with sourceLang := "Spanish", targetLang := "French" } :=
  ⟨(swap_refused_or_exchanged (initialView defaultSettings)).1 (Or.inl rfl),
   (swap_refused_or_exchanged
      { initialView defaultSettings with sourceLang := "French", targetLang := "Spanish" }).2.1
      (by decide) (by decide)⟩

/-- C12: `getAvailableLanguages(true)` is the list of the eight supported
languages; `getAvailableLanguages(false)` holds exactly the supported languages
other than 'Hebrew' and the current source, in the order of the full list, so
neither 'Hebrew' nor the current source is offered as a target. -/
theorem available_languages (v : View) :
    getAvailableLanguages v true =
      ["English", "Hebrew", "Spanish", "French", "German", "Italian", "Russian", "Arabic"] ∧
    (getAvailableLanguages v true).length = 8 ∧
    (getAvailableLanguages v true).Nodup ∧
    (∀ lang, lang ∈ getAvailableLanguages v false ↔
      (lang ∈ getAvailableLanguages v true ∧ lang ≠ "Hebrew" ∧ lang ≠ v.sourceLang)) ∧
    (getAvailableLanguages v false).Sublist (getAvailableLanguages v true) ∧
    "Hebrew" ∉ getAvailableLanguages v false ∧
    v.sourceLang ∉ getAvailableLanguages v false := by
  have htrue : getAvailableLanguages v true = allLanguages := by simp [getAvailableLanguages]
  have hfalse : getAvailableLanguages v false =
      allLanguages.filter (fun lang => lang != "Hebrew" && lang != v.sourceLang) := by
    simp [getAvailableLanguages]
  refine ⟨?_, ?_, ?_, ?_, ?_, ?_, ?_⟩
  · rw [htrue]; rfl
  · rw [htrue]; rfl
  · rw [htrue]; decide
  · intro lang
    rw [htrue, hfalse, List.mem_filter]
    simp
  · rw [htrue, hfalse]
    exact List.filter_sublist _
  · rw [hfalse, List.mem_filter]
    simp
  · rw [hfalse, List.mem_filter]
    simp

theorem getItem_setItem (st : Storage) (key value k : String) :
    (st.setItem key value).getItem k = if k = key then some value else st.getItem k := rfl

theorem parseInt_toString_range (n : Int) (h1 : 1 ≤ n) (h2 : n ≤ 30) :
    parseInt (toString n) = some n := by
  interval_cases n <;> decide

theorem newSettings_limit_range (formData : SettingsForm) :
    1 ≤ (newSettings formData).recordingTimeLimit ∧
    (newSettings formData).recordingTimeLimit ≤ 30 := by
  unfold newSettings
  simp only
  constructor
  · exact le_min (le_max_right _ _) (by decide)
  · exact min_le_right _ _

theorem parseIntOr5_toString_range (n : Int) (h1 : 1 ≤ n) (h2 : n ≤ 30) :
    parseIntOr5 (some (toString n)) = n := by
  unfold parseIntOr5
  simp only [Option.getD_some, parseInt_toString_range n h1 h2]
  rw [if_neg]
  omega

theorem load_after_save_limit (p : Page) (formData : SettingsForm) :
    (loadSettings (handleSettingsSave p formData).localStorage).recordingTimeLimit
      = (newSettings formData).recordingTimeLimit := by
  have hr := newSettings_limit_range formData
  simp only [loadSettings, handleSettingsSave, getItem_setItem, if_true]
  exact parseIntOr5_toString_range _ hr.1 hr.2

/-- C13, as stated, fails: with the string `100` stored under
'recordingTimeLimit', the settings loaded at startup have `recordingTimeLimit =
100`, outside [1,30]. -/
theorem stored_limit_unclamped_counterexample :
    (initialPage (emptyStorage.setItem "recordingTimeLimit" "100")).app.view.settings.recordingTimeLimit
      = 100 ∧
    ¬ ((initialPage (emptyStorage.setItem "recordingTimeLimit"
          "100")).app.view.settings.recordingTimeLimit ≤ 30) := by
  decide

/-- C13, amended: the settings `handleSettingsSave` puts in state have
`recordingTimeLimit` in [1,30] for any form input: it is 5 when the input does
not parse, and the parsed number clamped to [1,30] when that number is not 0.
The settings loaded at startup have it in [1,30] when the
store was last written by `handleSettingsSave`, and equal to 5 when the store
has no entry under 'recordingTimeLimit'. -/
theorem limit_in_range (p : Page) (formData : SettingsForm) (st : Storage) :
    (1 ≤ (handleSettingsSave p formData).app.view.settings.recordingTimeLimit ∧
      (handleSettingsSave p formData).app.view.settings.recordingTimeLimit ≤ 30) ∧
    (parseInt formData.recordingTimeLimit = none →
      (handleSettingsSave p formData).app.view.settings.recordingTimeLimit = 5) ∧
    (∀ n : Int, parseInt formData.recordingTimeLimit = some n → n ≠ 0 →
      (handleSettingsSave p formData).app.view.settings.recordingTimeLimit
        = min (max n 1) 30) ∧
    (1 ≤ (initialPage (handleSettingsSave p formData).localStorage).app.view.settings.recordingTimeLimit ∧
      (initialPage (handleSettingsSave p formData).localStorage).app.view.settings.recordingTimeLimit
        ≤ 30) ∧
    (st.getItem "recordingTimeLimit" = none →
      (initialPage st).app.view.settings.recordingTimeLimit = 5) := by
  have hr := newSettings_limit_range formData
  refine ⟨hr, ?_, ?_, ?_, ?_⟩
  · intro h
    show (newSettings formData).recordingTimeLimit = 5
    simp [newSettings, parseIntOr5, h]
  · intro n h hn
    show (newSettings formData).recordingTimeLimit = _
    simp [newSettings, parseIntOr5, h, hn]
  · show 1 ≤ (loadSettings (handleSettingsSave p formData).localStorage).recordingTimeLimit ∧
      (loadSettings (handleSettingsSave p formData).localStorage).recordingTimeLimit ≤ 30
    rw [load_after_save_limit]
    exact hr
  · intro h
    show (loadSettings st).recordingTimeLimit = 5
    simp only [loadSettings, h]
    decide

theorem limit_in_range_witness :
    (handleSettingsSave translatedPage ⟨"gpt-4o", none, "sk-1", none, "abc"⟩).app.view.settings.recordingTimeLimit
      = 5 ∧
    (handleSettingsSave translatedPage ⟨"gpt-4o", none, "sk-1", none, "99"⟩).app.view.settings.recordingTimeLimit
      = 30 ∧
    (initialPage emptyStorage).app.view.settings.recordingTimeLimit = 5 :=
  ⟨(limit_in_range translatedPage ⟨"gpt-4o", none, "sk-1", none, "abc"⟩ emptyStorage).2.1
      (by decide),
   (limit_in_range translatedPage ⟨"gpt-4o", none, "sk-1", none, "99"⟩ emptyStorage).2.2.1 99
      (by decide) (by decide),
   (limit_in_range translatedPage ⟨"gpt-4o", none, "sk-1", none, "99"⟩ emptyStorage).2.2.2.2 rfl⟩

theorem stringOr_some_of_ne (s dflt : String) (h : s ≠ "") : stringOr (some s) dflt = s := by
  simp [stringOr, truthy, h]

theorem stringOr_some_empty (s : String) : stringOr (some s) "" = s := by
  by_cases h : s = ""
  · subst h; rfl
  · exact stringOr_some_of_ne s "" h

theorem stored_bool_read_back (b : Bool) : (some (toString b) == some "true" || false) = b := by
  cases b <;> decide

/-- C14: after `handleSettingsSave` on a form whose model is one of the two
offered options (any key, any checkboxes, any time-limit input), the settings
the startup loader reads from `localStorage` are the settings placed in state;
with an empty store the loader gives the defaults (`gpt-4o`, `false`, empty
key, `false`, 5). -/
theorem settings_round_trip (p : Page) (formData : SettingsForm)
    (hmodel : formData.model ∈ modelOptions) :
    (initialPage (handleSettingsSave p formData).localStorage).app.view.settings
      = (handleSettingsSave p formData).app.view.settings ∧
    (initialPage emptyStorage).app.view.settings =
      { model := "gpt-4o", lowercase := false, apiKey := "",
        editTranscriptionBeforeTranslate := false, recordingTimeLimit := 5 } := by
  refine ⟨?_, by decide⟩
  have hne : formData.model ≠ "" := by
    simp only [modelOptions, List.mem_cons, List.mem_singleton, List.not_mem_nil, or_false]
      at hmodel
    rcases hmodel with h | h <;> rw [h] <;> decide
  have hlimit := load_after_save_limit p formData
  show loadSettings (handleSettingsSave p formData).localStorage = newSettings formData
  have hfields : ∀ a b : Settings, a.model = b.model → a.lowercase = b.lowercase →
      a.apiKey = b.apiKey →
      a.editTranscriptionBeforeTranslate = b.editTranscriptionBeforeTranslate →
      a.recordingTimeLimit = b.recordingTimeLimit → a = b := by
    intro a b h1 h2 h3 h4 h5
    cases a; cases b
    simp only at h1 h2 h3 h4 h5
    subst h1 h2 h3 h4 h5
    rfl
  apply hfields
  · simp only [loadSettings, handleSettingsSave, getItem_setItem]
    simp only [show ("model" = "recordingTimeLimit") = False from by decide,
      show ("model" = "editTranscriptionBeforeTranslate") = False from by decide,
      show ("model" = "apiKey") = False from by decide,
      show ("model" = "lowercase") = False from by decide, if_false, if_true]
    exact stringOr_some_of_ne _ _ hne
  · simp only [loadSettings, handleSettingsSave, getItem_setItem]
    simp only [show ("lowercase" = "recordingTimeLimit") = False from by decide,
      show ("lowercase" = "editTranscriptionBeforeTranslate") = False from by decide,
      show ("lowercase" = "apiKey") = False from by decide, if_false, if_true]
    exact stored_bool_read_back _
  · simp only [loadSettings, handleSettingsSave, getItem_setItem]
    simp only [show ("apiKey" = "recordingTimeLimit") = False from by decide,
      show ("apiKey" = "editTranscriptionBeforeTranslate") = False from by decide,
      if_false, if_true]
    exact stringOr_some_empty _
  · simp only [loadSettings, handleSettingsSave, getItem_setItem]
    simp only [show ("editTranscriptionBeforeTranslate" = "recordingTimeLimit") = False
      from by decide, if_false, if_true]
    exact stored_bool_read_back _
  · exact hlimit

theorem settings_round_trip_witness :
    (initialPage (handleSettingsSave translatedPage
        ⟨"gpt-4o-mini", some "on", "sk-2", none, "99"⟩).localStorage).app.view.settings
      = { model := "gpt-4o-mini", lowercase := true, apiKey := "sk-2",
          editTranscriptionBeforeTranslate := false, recordingTimeLimit := 30 } :=
  (settings_round_trip translatedPage ⟨"gpt-4o-mini", some "on", "sk-2", none, "99"⟩
    (by decide)).1.trans (by decide)

/-- C15, as stated, fails: with `hi` typed and `shalom` displayed, cancelling
the settings panel, swapping the languages, and switching to text or to voice
mode each leave `inputText = hi` and `outputText = shalom`; neither is
emptied. -/
theorem reset_keeps_text_counterexample :
    (resetAction .cancelSettings translatedPage).app.view.inputText = "hi" ∧
    (resetAction .cancelSettings translatedPage).app.view.outputText = "shalom" ∧
    (resetAction .swapLanguages translatedPage).app.view.inputText = "hi" ∧
    (resetAction .swapLanguages translatedPage).app.view.outputText = "shalom" ∧
    (resetAction .textMode translatedPage).app.view.inputText = "hi" ∧
    (resetAction .textMode translatedPage).app.view.outputText = "shalom" ∧
    (resetAction .voiceMode translatedPage).app.view.inputText = "hi" ∧
    (resetAction .voiceMode translatedPage).app.view.outputText = "shalom" ∧
    (resetAction .cancelSettings translatedPage).app.view.inputText ≠ "" := by
  decide

theorem languageEffect_frame (v : View) :
    (languageEffect v).inputText = v.inputText ∧ (languageEffect v).outputText = v.outputText ∧
    (languageEffect v).showEditableTranscription = v.showEditableTranscription ∧
    (languageEffect v).settings = v.settings := by
  unfold languageEffect
  split <;> exact ⟨rfl, rfl, rfl, rfl⟩

theorem swapLanguages_frame (v : View) :
    (swapLanguages v).inputText = v.inputText ∧ (swapLanguages v).outputText = v.outputText ∧
    (swapLanguages v).showEditableTranscription = v.showEditableTranscription ∧
    (swapLanguages v).settings = v.settings := by
  unfold swapLanguages
  split <;> exact ⟨rfl, rfl, rfl, rfl⟩

/-- C15, amended: from any state, cancelling the settings panel, swapping the
languages and switching the input mode each leave `inputText` and `outputText`
as they are (they are not emptied), leave the settings in state and the whole
of `localStorage` unchanged; the Text button dismisses the draft review
(`showEditableTranscription = false`), the other three leave it as it is. -/
theorem reset_frame (a : ResetAction) (p : Page) :
    (resetAction a p).app.view.inputText = p.app.view.inputText ∧
    (resetAction a p).app.view.outputText = p.app.view.outputText ∧
    (resetAction a p).app.view.showEditableTranscription
      = (if a = .textMode then false else p.app.view.showEditableTranscription) ∧
    (resetAction a p).app.view.settings = p.app.view.settings ∧
    (resetAction a p).localStorage = p.localStorage := by
  cases a with
  | cancelSettings => exact ⟨rfl, rfl, rfl, rfl, rfl⟩
  | textMode => exact ⟨rfl, rfl, rfl, rfl, rfl⟩
  | voiceMode => exact ⟨rfl, rfl, rfl, rfl, rfl⟩
  | swapLanguages =>
      have h1 := languageEffect_frame (swapLanguages p.app.view)
      have h2 := swapLanguages_frame p.app.view
      refine ⟨?_, ?_, ?_, ?_, rfl⟩
      · exact h1.1.trans h2.1
      · exact h1.2.1.trans h2.2.1
      · exact h1.2.2.1.trans h2.2.2.1
      · exact h1.2.2.2.trans h2.2.2.2

end QuickTranslator
